import Mathlib

/-!
Verification development for the dccmd CLI (DRACOON Commander).

The source under scrutiny is `src/dccmd/__init__.py`, which defines the
`upload`, `mkdir`, `mkroom`, `rm`, `ls` and `download` commands.  The
commands orchestrate calls to external collaborators (the DRACOON SDK,
the local filesystem, the credential store).  We embed each command as a
pure function from an environment — the results the external collaborators
would return — to the trace of observable events the command performs and
the way the command terminates.  Helper modules of the repository
(`dccmd.main.util`, `dccmd.main.upload`, `dccmd.main.crypto.keys`) are not
part of the provided source tree; where a property depends on their
behaviour they are modelled from the specification, and each such
definition is marked `Modelled from the spec`.
-/

namespace Dccmd

/-- Node types of the remote hierarchy (`NodeType` in `dracoon.nodes.models`):
a `Room` is a permission/encryption boundary, `Folder` and `File` are
ordinary nodes nested under a room. -/
inductive NType
  | room
  | folder
  | file
deriving DecidableEq

/-- A remote node as consumed by the commands (spec section 3, `RemoteNode`):
the upload command reads `type`, `isEncrypted`, `id` and `authParentId`;
`parentId` and `size` complete the data model. -/
structure Node where
  id : Nat
  type : NType
  parentId : Option Nat
  isEncrypted : Bool
  authParentId : Nat
  size : Nat
deriving DecidableEq

/-- Error raised by the path-parsing helpers (`DCPathParseError` in
`dccmd.main.models.errors`). -/
inductive ParseErr
  | pathParse
deriving DecidableEq

/-- Split a character list on the path separator, accumulating the current
segment in reverse. -/
def splitSegsAux : List Char → List Char → List String
  | [], acc => [String.mk acc.reverse]
  | c :: rest, acc =>
    if c = '/' then String.mk acc.reverse :: splitSegsAux rest []
    else splitSegsAux rest (c :: acc)

/-- Modelled from the spec: `parse_path` from `dccmd.main.util`, which is not
under src/.  Spec 4.1: strips the leading host-identifying segment, collapses
repeated separators (dropping the empty segments they produce); accepts root
as a valid (empty) result.  A path is a list of segment strings. -/
def parse_path (raw : String) : List String :=
  ((splitSegsAux raw.toList []).filter (fun s => s ≠ "")).drop 1

/-- Modelled from the spec: `parse_new_path` from `dccmd.main.util`, which is
not under src/.  Spec 4.1: as `parse_path` but returns the PARENT of the
final segment; fails with a path-parse error if the input has no parent
(refers to the hierarchy root). -/
def parse_new_path (raw : String) : Except ParseErr (List String) :=
  match parse_path raw with
  | [] => Except.error ParseErr.pathParse
  | segs => Except.ok segs.dropLast

/-- Modelled from the spec: `parse_file_name` from `dccmd.main.util`, which is
not under src/.  Spec 4.1: returns the final segment; fails with a
path-parse error on an empty path. -/
def parse_file_name (raw : String) : Except ParseErr String :=
  match (parse_path raw).getLast? with
  | some s => Except.ok s
  | none => Except.error ParseErr.pathParse

/-- Resolution strategy chosen by the upload command
(src/dccmd/__init__.py lines 138-152): the default is "fail"; the
overwrite flag selects "overwrite"; the auto-rename flag selects
"autorename" (assigned last, so it wins when set); the conflicting
combination of both flags is rejected before this value is used. -/
def resolutionStrategy (overwrite autoRename : Bool) : String :=
  if autoRename then "autorename"
  else if overwrite then "overwrite"
  else "fail"

/-- Outcome of the external `dracoon.upload` call in the single-file branch,
matching the exception handlers of src/dccmd/__init__.py lines 185-208. -/
inductive UploadOutcome
  | ok
  | forbidden
  | conflict
  | invalidPath
  | otherHttpError
deriving DecidableEq

/-- Observable events of the upload command, in the order the command
performs them.  Message decoration by `format_error_message` and
`format_success_message` is elided; the message text is kept. -/
inductive Event
  | echoError (msg : String)
  | echoSuccess (msg : String)
  | initKeypair
  | createFolderStruct (source : String) (target : List String)
  | bulkUpload (source : String) (target : List String) (strategy : String) (velocity : Int)
  | singleUpload (source : String) (target : List String) (strategy : String)
  | distributeKeys (roomId : Nat)
  | logout
deriving DecidableEq

/-- How a command run ends: `exited c` models `sys.exit(c)`; `finished`
models normal return (process exit status 0); `unboundLocalError` models an
uncaught `UnboundLocalError`; `raisedPathParse` models an uncaught
`DCPathParseError`. -/
inductive Termination
  | exited (code : Nat)
  | finished
  | unboundLocalError
  | raisedPathParse
deriving DecidableEq

/-- Environment of one run of the upload command: its arguments together
with the results the external collaborators return. -/
structure UploadEnv where
  targetPath : String
  sourceDirPath : String
  overwrite : Bool
  autoRename : Bool
  recursive : Bool
  velocity : Int
  /-- result of `dracoon.nodes.get_node_from_path(parsed_path)` -/
  nodeInfo : Option Node
  /-- result of `is_directory(source_dir_path)` -/
  isFolder : Bool
  /-- result of `is_file(source_dir_path)` -/
  isFile : Bool
  /-- outcome of `dracoon.upload` in the single-file branch -/
  uploadResult : UploadOutcome
  /-- result of `parse_file_name(source_dir_path)`; `none` models the
  `DCPathParseError` case -/
  sourceFileName : Option String
deriving DecidableEq

/-- src/dccmd/__init__.py lines 222-226: `distrib_node_id` starts unbound;
the first `if` assigns `authParentId` when the node is a folder, the second
assigns the node id when it is a room; `none` means the variable was never
assigned. -/
def distribNodeId (node : Node) : Option Nat :=
  let d0 : Option Nat := none
  let d1 := if node.type = NType.folder then some node.authParentId else d0
  let d2 := if node.type = NType.room then some node.id else d1
  d2

/-- The transfer part of the upload command (src/dccmd/__init__.py lines
154-220): the folder/recursive branch chain, the single-file branch with its
exception handlers, and the fallback error echo.  Returns the events and
`some t` when the branch terminates the run, `none` when control falls
through to the key-distribution epilogue. -/
def transferPhase (env : UploadEnv) (parsedPath : List String) (strat : String) :
    List Event × Option Termination :=
  if env.isFolder && !env.recursive then
    ([Event.echoError ("Folder can only be uploaded via recursive (-r) flag.")], none)
  else if env.isFolder && env.recursive then
    match env.sourceFileName with
    | some folderName =>
        ([Event.createFolderStruct env.sourceDirPath parsedPath,
          Event.bulkUpload env.sourceDirPath parsedPath strat env.velocity,
          Event.echoSuccess ("Folder " ++ folderName ++ " uploaded.")], none)
    | none =>
        ([Event.createFolderStruct env.sourceDirPath parsedPath,
          Event.bulkUpload env.sourceDirPath parsedPath strat env.velocity],
         some Termination.raisedPathParse)
  else if env.isFile then
    match env.uploadResult with
    | UploadOutcome.ok =>
        let fname :=
          match env.sourceFileName with
          | some n => n
          | none => env.sourceDirPath
        ([Event.singleUpload env.sourceDirPath parsedPath strat,
          Event.echoSuccess ("File " ++ fname ++ " uploaded.")], none)
    | UploadOutcome.forbidden =>
        ([Event.singleUpload env.sourceDirPath parsedPath strat, Event.logout,
          Event.echoError ("Insufficient permissions (create required).")],
         some (Termination.exited 2))
    | UploadOutcome.conflict =>
        ([Event.singleUpload env.sourceDirPath parsedPath strat, Event.logout,
          Event.echoError ("File already exists.")],
         some (Termination.exited 2))
    | UploadOutcome.invalidPath =>
        ([Event.singleUpload env.sourceDirPath parsedPath strat, Event.logout,
          Event.echoError ("Target path not found. (" ++ env.targetPath ++ ")")],
         some (Termination.exited 2))
    | UploadOutcome.otherHttpError =>
        ([Event.singleUpload env.sourceDirPath parsedPath strat, Event.logout,
          Event.echoError ("An error ocurred uploading the file.")],
         some (Termination.exited 2))
  else
    ([Event.echoError ("Provided path must be a folder or file. (" ++ env.sourceDirPath ++ ")")],
     none)

/-- The key-distribution epilogue of the upload command
(src/dccmd/__init__.py lines 222-231): when the target is encrypted,
`distribute_missing_keys` is called with `distrib_node_id`; reading the
variable while unbound raises `UnboundLocalError`; otherwise the command
logs out and returns normally. -/
def finishPhase (node : Node) : List Event × Termination :=
  if node.isEncrypted then
    match distribNodeId node with
    | some rid => ([Event.distributeKeys rid, Event.logout], Termination.finished)
    | none => ([], Termination.unboundLocalError)
  else
    ([Event.logout], Termination.finished)

/-- The upload command (src/dccmd/__init__.py lines 108-233): resolve the
target node (exit 1 when the path resolves to nothing), initialise the
keypair for an encrypted target, reject the conflicting flag combination
(exit 1), run the transfer branch, then the key-distribution epilogue. -/
def uploadCmd (env : UploadEnv) : List Event × Termination :=
  let parsedPath := parse_path env.targetPath
  match env.nodeInfo with
  | none =>
      ([Event.echoError ("Invalid target path: " ++ env.targetPath)], Termination.exited 1)
  | some node =>
      let cryptoEvents := if node.isEncrypted then [Event.initKeypair] else []
      if env.overwrite && env.autoRename then
        (cryptoEvents ++
           [Event.echoError
             ("Conflict: cannot use both resolution strategies (auto-rename / overwrite).")],
         Termination.exited 1)
      else
        let strat := resolutionStrategy env.overwrite env.autoRename
        let t := transferPhase env parsedPath strat
        match t.2 with
        | some term => (cryptoEvents ++ t.1, term)
        | none =>
            let f := finishPhase node
            (cryptoEvents ++ t.1 ++ f.1, f.2)

/-- Events that perform transfer work (structure replication, bulk upload,
single-file upload). -/
def isTransferEvent : Event → Bool
  | Event.createFolderStruct _ _ => true
  | Event.bulkUpload _ _ _ _ => true
  | Event.singleUpload _ _ _ => true
  | _ => false

/-! ## Folder-structure replication and bulk upload

`create_folder_struct` and `bulk_upload` live in `dccmd.main.upload`, which
is not under src/; the definitions below are modelled from spec sections
4.2, 4.3 and 4.5. -/

/-- Kind of a local tree entry (spec section 3, `LocalEntry`). -/
inductive EntryKind
  | dir
  | file
deriving DecidableEq

/-- A local tree entry: its path relative to the upload source, as a list of
segments, and its kind (spec section 3). -/
structure LocalEntry where
  relPath : List String
  kind : EntryKind
deriving DecidableEq

/-- Remote state as seen by the replicator: which remote path holds a node
of which type.  Represented as an association list; replication only ever
prepends new folder bindings. -/
def RemoteState := List (List String × NType)

/-- Lookup of the node type at a remote path. -/
def lookupNode : RemoteState → List String → Option NType
  | [], _ => none
  | (q, t) :: rest, p => if p = q then some t else lookupNode rest p

/-- All non-empty prefixes of a segment list, shortest first. -/
def nonemptyPrefixes : List String → List (List String)
  | [] => []
  | a :: rest => [a] :: (nonemptyPrefixes rest).map (fun q => a :: q)

/-- Whether the remote path holds a node that is not a folder. -/
def nonFolderAt (st : RemoteState) (p : List String) : Bool :=
  match lookupNode st p with
  | some NType.folder => false
  | some _ => true
  | none => false

/-- Whether some non-empty prefix of the relative path (the path itself
included) is occupied by a non-folder node under the target: spec 4.3 calls
this a fatal structural conflict for the branch. -/
def conflictOnPath (st : RemoteState) (target relPath : List String) : Bool :=
  (nonemptyPrefixes relPath).any (fun q => nonFolderAt st (target ++ q))

/-- Modelled from the spec: `create_folder_struct` from `dccmd.main.upload`,
which is not under src/.  Spec 4.3: for each directory entry, ensure a
folder exists at the corresponding remote path under the resolved
destination; reuse an existing folder; skip a branch occupied by a
non-folder node (structural conflict); otherwise create the folder.  The
second component counts the mutating remote calls (folder creations). -/
def replicateStruct (target : List String) : RemoteState → List LocalEntry → RemoteState × Nat
  | st, [] => (st, 0)
  | st, e :: rest =>
    match e.kind with
    | EntryKind.file => replicateStruct target st rest
    | EntryKind.dir =>
      if conflictOnPath st target e.relPath then replicateStruct target st rest
      else
        match lookupNode st (target ++ e.relPath) with
        | some _ => replicateStruct target st rest
        | none =>
          let res := replicateStruct target ((target ++ e.relPath, NType.folder) :: st) rest
          (res.1, res.2 + 1)

/-- Modelled from the spec: the task list `bulk_upload` (from
`dccmd.main.upload`, not under src/) dispatches after replication.  Spec 4.3
and 4.5: one transfer task per file entry, targeting the remote parent of
the file; files nested under a structurally conflicted branch are recorded
as skipped, not dispatched.  Each task is (relative path, remote parent
path). -/
def dispatchedTasks (target : List String) (st : RemoteState) (walk : List LocalEntry) :
    List (List String × List String) :=
  walk.filterMap (fun e =>
    match e.kind with
    | EntryKind.dir => none
    | EntryKind.file =>
      if conflictOnPath st target e.relPath then none
      else some (e.relPath, target ++ e.relPath.dropLast))

/-- A walk lists, for every file entry below the top level, a directory
entry at the parent path of the file.  Spec 4.2 guarantees this (the walker
emits every directory strictly before anything nested under it). -/
def parentsListedB (walk : List LocalEntry) : Bool :=
  walk.all (fun e =>
    match e.kind with
    | EntryKind.dir => true
    | EntryKind.file =>
      e.relPath.dropLast.isEmpty ||
        walk.any (fun d => decide (d.kind = EntryKind.dir ∧ d.relPath = e.relPath.dropLast)))

/-! ## Conflict-resolution policy -/

/-- Conflict kinds of the failure taxonomy (spec sections 4.5 and 7). -/
inductive ConflictKind
  | conflict
  | structuralConflict
deriving DecidableEq

/-- Action decided by the conflict-resolution policy (spec 4.4). -/
inductive PolicyAction
  | proceed
  | replaceContent
  | reject (kind : ConflictKind)
  | createRenamed
deriving DecidableEq

/-- Modelled from the spec: `ConflictResolutionPolicy` (spec 4.4); the
implementation lives in `dccmd.main.upload` and the DRACOON SDK, which are
not under src/.  Pure function of strategy and existing-node state: `fail`
rejects any occupied name with Conflict; `overwrite` replaces the content of
an existing file but rejects folders and rooms with StructuralConflict;
`autorename` creates under a fresh derived name. -/
def conflictPolicy (strategy : String) (existing : Option NType) : PolicyAction :=
  match existing with
  | none => PolicyAction.proceed
  | some t =>
    if strategy = "fail" then PolicyAction.reject ConflictKind.conflict
    else if strategy = "overwrite" then
      if t = NType.file then PolicyAction.replaceContent
      else PolicyAction.reject ConflictKind.structuralConflict
    else PolicyAction.createRenamed

/-- Whether a policy action mutates the node that already occupies the
target name: only a content replacement does; a rejection, a renamed
creation and a plain creation leave it untouched. -/
def mutatesExisting : PolicyAction → Bool
  | PolicyAction.replaceContent => true
  | _ => false

/-! ## Upload scheduler

`bulk_upload` (in `dccmd.main.upload`, not under src/) dispatches transfer
tasks under a concurrency bound; spec sections 4.5 and 5 describe it.  We
model the scheduler as a state machine whose steps interleave task dispatch
and task settlement; the velocity factor is abstracted to the maximum
in-flight count it maps to. -/

/-- State of the bulk-upload scheduler: queued, in-flight and settled task
ids. -/
structure SchedState where
  queued : List Nat
  inFlight : List Nat
  settled : List Nat
deriving DecidableEq

/-- Initial scheduler state: every task queued, none in flight. -/
def initSched (tasks : List Nat) : SchedState :=
  ⟨tasks, [], []⟩

/-- Modelled from the spec: one scheduler transition (spec 4.5 and 5).  A
task may be dispatched only while fewer than `limit` transfers are in
flight; a task in flight may settle (complete or fail) at any time. -/
inductive SchedStep (limit : Nat) : SchedState → SchedState → Prop
  | dispatch (s : SchedState) (t : Nat) (ht : t ∈ s.queued)
      (hb : s.inFlight.length < limit) :
      SchedStep limit s ⟨s.queued.erase t, t :: s.inFlight, s.settled⟩
  | settle (s : SchedState) (t : Nat) (ht : t ∈ s.inFlight) :
      SchedStep limit s ⟨s.queued, s.inFlight.erase t, t :: s.settled⟩

/-- States the scheduler can reach from a start state. -/
inductive SchedReachable (limit : Nat) (s0 : SchedState) : SchedState → Prop
  | refl : SchedReachable limit s0 s0
  | step (s s' : SchedState) (h : SchedReachable limit s0 s)
      (hs : SchedStep limit s s') : SchedReachable limit s0 s'

/-! ## The mkdir and mkroom commands -/

/-- Outcome of the external `dracoon.nodes.create_folder` call, matching the
exception handlers of src/dccmd/__init__.py lines 282-303. -/
inductive FolderCreateOutcome
  | ok
  | conflict
  | forbidden
  | otherHttpError
deriving DecidableEq

/-- Outcome of the external `dracoon.nodes.create_room` call, matching the
exception handlers of src/dccmd/__init__.py lines 365-400. -/
inductive RoomCreateOutcome
  | ok
  | conflict
  | forbidden
  | otherHttpError
  | connectTimeout
  | connectError
deriving DecidableEq

/-- Observable events of the mkdir and mkroom commands. -/
inductive MkEvent
  | echoError (msg : String)
  | echoSuccess (msg : String)
  | createFolder (parentId : Nat) (name : String)
  | createRoom (parentId : Nat) (name : String) (inheritPerms : Bool)
  | logout
deriving DecidableEq

/-- Environment of one run of mkdir: the argument and the results of the
external calls. -/
structure MkdirEnv where
  dirPath : String
  /-- result of `dracoon.nodes.get_node_from_path(parsed_path)` -/
  parentNode : Option Node
  createResult : FolderCreateOutcome
deriving DecidableEq

/-- Environment of one run of mkroom. -/
structure MkroomEnv where
  dirPath : String
  parentNode : Option Node
  createResult : RoomCreateOutcome
deriving DecidableEq

/-- Render a parsed path for an echoed message. -/
def showPath (p : List String) : String :=
  String.intercalate ("/") p

/-- The mkdir command (src/dccmd/__init__.py lines 257-308): parse the
parent path and the new folder name (an uncaught parse error propagates),
resolve the parent (exit 1 when absent), then create the folder under the
parent id, mapping each caught exception to an echo and exit 1. -/
def mkdirCmd (env : MkdirEnv) : List MkEvent × Termination :=
  match parse_new_path env.dirPath with
  | Except.error _ => ([], Termination.raisedPathParse)
  | Except.ok parsedPath =>
    match parse_file_name env.dirPath with
    | Except.error _ => ([], Termination.raisedPathParse)
    | Except.ok folderName =>
      match env.parentNode with
      | none =>
          ([MkEvent.logout, MkEvent.echoError ("Node not found: " ++ showPath parsedPath)],
           Termination.exited 1)
      | some parent =>
          let creation := MkEvent.createFolder parent.id folderName
          match env.createResult with
          | FolderCreateOutcome.ok =>
              ([creation, MkEvent.echoSuccess ("Folder " ++ folderName ++ " created."),
                MkEvent.logout], Termination.finished)
          | FolderCreateOutcome.conflict =>
              ([creation, MkEvent.logout,
                MkEvent.echoError ("Name already exists: " ++ env.dirPath)],
               Termination.exited 1)
          | FolderCreateOutcome.forbidden =>
              ([creation, MkEvent.logout,
                MkEvent.echoError ("Insufficient permissions (create permission required).")],
               Termination.exited 1)
          | FolderCreateOutcome.otherHttpError =>
              ([creation, MkEvent.logout,
                MkEvent.echoError ("An error ocurred - folder could not be created.")],
               Termination.exited 1)

/-- The mkroom command (src/dccmd/__init__.py lines 332-407): as mkdir, but
the parent must additionally be a room (exit 1 otherwise) and the room is
created with inherited permissions. -/
def mkroomCmd (env : MkroomEnv) : List MkEvent × Termination :=
  match parse_new_path env.dirPath with
  | Except.error _ => ([], Termination.raisedPathParse)
  | Except.ok parsedPath =>
    match parse_file_name env.dirPath with
    | Except.error _ => ([], Termination.raisedPathParse)
    | Except.ok roomName =>
      match env.parentNode with
      | none =>
          ([MkEvent.logout, MkEvent.echoError ("Node not found: " ++ showPath parsedPath)],
           Termination.exited 1)
      | some parent =>
          if parent.type ≠ NType.room then
            ([MkEvent.logout,
              MkEvent.echoError ("Parent path must be a room: " ++ showPath parsedPath)],
             Termination.exited 1)
          else
            let creation := MkEvent.createRoom parent.id roomName true
            match env.createResult with
            | RoomCreateOutcome.ok =>
                ([creation, MkEvent.echoSuccess ("Room " ++ roomName ++ " created."),
                  MkEvent.logout], Termination.finished)
            | RoomCreateOutcome.conflict =>
                ([creation, MkEvent.echoError ("Name already exists: " ++ env.dirPath),
                  MkEvent.logout], Termination.exited 1)
            | RoomCreateOutcome.forbidden =>
                ([creation, MkEvent.logout,
                  MkEvent.echoError ("Insufficient permissions (room admin required).")],
                 Termination.exited 1)
            | RoomCreateOutcome.otherHttpError =>
                ([creation, MkEvent.logout,
                  MkEvent.echoError ("An error ocurred - room could not be created.")],
                 Termination.exited 1)
            | RoomCreateOutcome.connectTimeout =>
                ([creation,
                  MkEvent.echoError ("Connection timeout - room could not be created.")],
                 Termination.exited 1)
            | RoomCreateOutcome.connectError =>
                ([creation,
                  MkEvent.echoError ("Connection error - room could not be created.")],
                 Termination.exited 1)


/-! ## Concrete fixtures for the closed witness theorems -/

/-- An encrypted room node whose id differs from its authParentId. -/
def nodeRoomEnc : Node := ⟨5, NType.room, none, true, 7, 0⟩

/-- An encrypted folder node. -/
def nodeFolderEnc : Node := ⟨6, NType.folder, some 5, true, 5, 0⟩

/-- An encrypted file node. -/
def nodeFileEnc : Node := ⟨8, NType.file, some 6, true, 5, 4⟩

/-- An unencrypted room node. -/
def nodeRoomPlain : Node := ⟨9, NType.room, none, false, 9, 0⟩

/-- Run against an encrypted room where the source is neither a file nor a
directory. -/
def envOtherRoomEnc : UploadEnv :=
  ⟨"h/r", "src", false, false, false, 2, some nodeRoomEnc, false, false,
   UploadOutcome.ok, none⟩

/-- Run against an encrypted folder where the source is neither a file nor a
directory. -/
def envOtherFolderEnc : UploadEnv :=
  ⟨"h/r", "src", false, false, false, 2, some nodeFolderEnc, false, false,
   UploadOutcome.ok, none⟩

/-- Run whose target path resolves to no node. -/
def envNoNode : UploadEnv :=
  ⟨"h/r", "src", false, false, false, 2, none, false, false,
   UploadOutcome.ok, none⟩

/-- Run against an unencrypted room where the source is neither a file nor a
directory. -/
def envOtherRoomPlain : UploadEnv :=
  ⟨"h/r", "src", false, false, false, 2, some nodeRoomPlain, false, false,
   UploadOutcome.ok, none⟩

/-- Single-file run with neither resolution flag whose upload hits an
existing same-name node (HTTP conflict). -/
def envFileConflict : UploadEnv :=
  ⟨"h/r", "a.txt", false, false, false, 2, some nodeRoomPlain, false, true,
   UploadOutcome.conflict, some "a.txt"⟩

/-- Successful single-file run into an encrypted room. -/
def envFileOkRoomEnc : UploadEnv :=
  ⟨"h/r", "a.txt", false, false, false, 2, some nodeRoomEnc, false, true,
   UploadOutcome.ok, some "a.txt"⟩

/-- Directory source without the recursive flag, encrypted room target. -/
def envDirNoRec : UploadEnv :=
  ⟨"h/r", "srcdir", false, false, false, 2, some nodeRoomEnc, true, false,
   UploadOutcome.ok, some "srcdir"⟩

/-- Directory source without the recursive flag, target an encrypted file
node. -/
def envDirNoRecFileEnc : UploadEnv :=
  ⟨"h/r", "srcdir", false, false, false, 2, some nodeFileEnc, true, false,
   UploadOutcome.ok, some "srcdir"⟩

/-- Recursive directory upload into an encrypted room. -/
def envDirRec : UploadEnv :=
  ⟨"h/r", "srcdir", false, false, true, 2, some nodeRoomEnc, true, false,
   UploadOutcome.ok, some "srcdir"⟩

/-- A one-room remote state for the replication fixtures. -/
def stRoomOnly : RemoteState := [(["r"], NType.room)]

/-- A two-entry local walk: a directory and a file inside it. -/
def walkDocs : List LocalEntry :=
  [⟨["docs"], EntryKind.dir⟩, ⟨["docs", "a.txt"], EntryKind.file⟩]

/-- Recursive directory upload into an encrypted room whose
`parse_file_name(source_dir_path)` call raises: src line 173 performs that
call unguarded after the bulk upload. -/
def envDirRecParseErr : UploadEnv :=
  ⟨"h/r", "srcdir", false, false, true, 2, some nodeRoomEnc, true, false,
   UploadOutcome.ok, none⟩

/-- Whether a trace contains a key-distribution call. -/
def containsDistrib (trace : List Event) : Bool :=
  trace.any (fun e =>
    match e with
    | Event.distributeKeys _ => true
    | _ => false)

/-- Parent-path environment for the mkdir and mkroom witnesses. -/
def mkdirEnvEx : MkdirEnv := ⟨"h/r/newdir", some nodeRoomPlain, FolderCreateOutcome.ok⟩

/-- Parent-path environment for the mkroom witness. -/
def mkroomEnvEx : MkroomEnv := ⟨"h/r/newroom", some nodeRoomPlain, RoomCreateOutcome.ok⟩

/-- A local entry on which a further replication run performs no mutating
call: a file entry, a structurally conflicted directory, or a directory
whose remote path is already occupied. -/
def settledB (st : RemoteState) (target : List String) (e : LocalEntry) : Bool :=
  match e.kind with
  | EntryKind.file => true
  | EntryKind.dir =>
    conflictOnPath st target e.relPath || (lookupNode st (target ++ e.relPath)).isSome

/-! ## Trace lemmas for the upload command -/

theorem transferPhase_no_distrib (env : UploadEnv) (p : List String) (s : String) (r : Nat) :
    Event.distributeKeys r ∉ (transferPhase env p s).1 := by
  unfold transferPhase
  repeat' split <;> try simp

theorem transferPhase_no_logout_of_continue (env : UploadEnv) (p : List String) (s : String)
    (h : (transferPhase env p s).2 = none) :
    Event.logout ∉ (transferPhase env p s).1 := by
  unfold transferPhase at h ⊢
  repeat' split at h <;> try simp_all

theorem transferPhase_term_cases (env : UploadEnv) (p : List String) (s : String)
    (term : Termination) (h : (transferPhase env p s).2 = some term) :
    term = Termination.exited 2 ∨ term = Termination.raisedPathParse := by
  unfold transferPhase at h
  repeat' split at h <;> try simp_all

theorem distrib_in_finish (node : Node) (r : Nat)
    (h : Event.distributeKeys r ∈ (finishPhase node).1) :
    distribNodeId node = some r := by
  unfold finishPhase at h
  cases he : node.isEncrypted with
  | false => simp [he] at h
  | true =>
    cases hd : distribNodeId node with
    | none => simp [he, hd] at h
    | some rid =>
      simp [he, hd] at h
      rw [h]

theorem finish_no_transfer (node : Node) (e : Event)
    (h : e ∈ (finishPhase node).1) : isTransferEvent e = false := by
  unfold finishPhase at h
  cases he : node.isEncrypted with
  | false =>
    simp [he] at h
    rw [h]
    rfl
  | true =>
    cases hd : distribNodeId node with
    | none => simp [he, hd] at h
    | some rid =>
      simp [he, hd] at h
      rcases h with rfl | rfl <;> rfl

theorem distribNodeId_room (node : Node) (h : node.type = NType.room) :
    distribNodeId node = some node.id := by
  simp [distribNodeId, h]

theorem distribNodeId_folder (node : Node) (h : node.type = NType.folder) :
    distribNodeId node = some node.authParentId := by
  simp [distribNodeId, h]

theorem distribNodeId_file (node : Node) (h : node.type = NType.file) :
    distribNodeId node = none := by
  simp [distribNodeId, h]

/-! ## Replicator lemmas -/

theorem replicateStruct_cons_file (target : List String) (st : RemoteState)
    (e : LocalEntry) (rest : List LocalEntry) (hk : e.kind = EntryKind.file) :
    replicateStruct target st (e :: rest) = replicateStruct target st rest := by
  conv_lhs => unfold replicateStruct
  rw [hk]

theorem replicateStruct_cons_conflict (target : List String) (st : RemoteState)
    (e : LocalEntry) (rest : List LocalEntry) (hk : e.kind = EntryKind.dir)
    (hc : conflictOnPath st target e.relPath = true) :
    replicateStruct target st (e :: rest) = replicateStruct target st rest := by
  conv_lhs => unfold replicateStruct
  rw [hk, if_pos hc]

theorem replicateStruct_cons_reuse (target : List String) (st : RemoteState)
    (e : LocalEntry) (rest : List LocalEntry) (t : NType) (hk : e.kind = EntryKind.dir)
    (hc : conflictOnPath st target e.relPath = false)
    (hl : lookupNode st (target ++ e.relPath) = some t) :
    replicateStruct target st (e :: rest) = replicateStruct target st rest := by
  conv_lhs => unfold replicateStruct
  rw [hk, if_neg (by simp [hc]), hl]

theorem replicateStruct_cons_create (target : List String) (st : RemoteState)
    (e : LocalEntry) (rest : List LocalEntry) (hk : e.kind = EntryKind.dir)
    (hc : conflictOnPath st target e.relPath = false)
    (hl : lookupNode st (target ++ e.relPath) = none) :
    replicateStruct target st (e :: rest) =
      ((replicateStruct target ((target ++ e.relPath, NType.folder) :: st) rest).1,
       (replicateStruct target ((target ++ e.relPath, NType.folder) :: st) rest).2 + 1) := by
  conv_lhs => unfold replicateStruct
  rw [hk, if_neg (by simp [hc]), hl]

theorem lookupNode_cons_ne (st : RemoteState) (q p : List String) (t : NType)
    (h : p ≠ q) : lookupNode ((q, t) :: st) p = lookupNode st p := by
  conv_lhs => unfold lookupNode
  rw [if_neg h]

theorem lookupNode_mono (target : List String) (l : List LocalEntry) :
    ∀ (st : RemoteState) (p : List String) (t : NType),
      lookupNode st p = some t →
      lookupNode (replicateStruct target st l).1 p = some t := by
  induction l with
  | nil =>
    intro st p t h
    simpa [replicateStruct] using h
  | cons e rest ih =>
    intro st p t h
    cases hk : e.kind with
    | file =>
      rw [replicateStruct_cons_file target st e rest hk]
      exact ih st p t h
    | dir =>
      cases hc : conflictOnPath st target e.relPath with
      | true =>
        rw [replicateStruct_cons_conflict target st e rest hk hc]
        exact ih st p t h
      | false =>
        cases hl : lookupNode st (target ++ e.relPath) with
        | some t2 =>
          rw [replicateStruct_cons_reuse target st e rest t2 hk hc hl]
          exact ih st p t h
        | none =>
          rw [replicateStruct_cons_create target st e rest hk hc hl]
          apply ih
          have hne : p ≠ target ++ e.relPath := by
            intro hpq
            rw [hpq, hl] at h
            cases h
          rw [lookupNode_cons_ne st (target ++ e.relPath) p NType.folder hne]
          exact h

theorem nonFolderAt_mono (target : List String) (l : List LocalEntry) (st : RemoteState)
    (x : List String) (h : nonFolderAt st x = true) :
    nonFolderAt (replicateStruct target st l).1 x = true := by
  unfold nonFolderAt at h ⊢
  cases hl : lookupNode st x with
  | none =>
    rw [hl] at h
    cases h
  | some t =>
    rw [lookupNode_mono target l st x t hl]
    rw [hl] at h
    exact h

theorem conflictOnPath_mono (target : List String) (l : List LocalEntry) (st : RemoteState)
    (p : List String) (h : conflictOnPath st target p = true) :
    conflictOnPath (replicateStruct target st l).1 target p = true := by
  unfold conflictOnPath at h ⊢
  rw [List.any_eq_true] at h ⊢
  obtain ⟨q, hq, hnf⟩ := h
  exact ⟨q, hq, nonFolderAt_mono target l st (target ++ q) hnf⟩

theorem replicateStruct_settled (target : List String) (l : List LocalEntry)
    (st : RemoteState) (h : ∀ e ∈ l, settledB st target e = true) :
    replicateStruct target st l = (st, 0) := by
  induction l with
  | nil => rfl
  | cons e rest ih =>
    have he := h e (List.mem_cons_self e rest)
    have hrest : ∀ x ∈ rest, settledB st target x = true :=
      fun x hx => h x (List.mem_cons_of_mem e hx)
    cases hk : e.kind with
    | file =>
      rw [replicateStruct_cons_file target st e rest hk]
      exact ih hrest
    | dir =>
      unfold settledB at he
      rw [hk] at he
      cases hc : conflictOnPath st target e.relPath with
      | true =>
        rw [replicateStruct_cons_conflict target st e rest hk hc]
        exact ih hrest
      | false =>
        rw [hc] at he
        simp only [Bool.false_or] at he
        obtain ⟨t, hl⟩ := Option.isSome_iff_exists.mp he
        rw [replicateStruct_cons_reuse target st e rest t hk hc hl]
        exact ih hrest

theorem settled_after (target : List String) (l : List LocalEntry) :
    ∀ (st : RemoteState), ∀ e ∈ l, settledB (replicateStruct target st l).1 target e = true := by
  induction l with
  | nil =>
    intro st e he
    cases he
  | cons e rest ih =>
    intro st x hx
    rcases List.mem_cons.mp hx with rfl | hx2
    · cases hk : x.kind with
      | file =>
        unfold settledB
        rw [hk]
      | dir =>
        unfold settledB
        rw [hk]
        cases hc : conflictOnPath st target x.relPath with
        | true =>
          rw [replicateStruct_cons_conflict target st x rest hk hc]
          rw [conflictOnPath_mono target rest st x.relPath hc]
          rfl
        | false =>
          cases hl : lookupNode st (target ++ x.relPath) with
          | some t =>
            rw [replicateStruct_cons_reuse target st x rest t hk hc hl]
            rw [lookupNode_mono target rest st (target ++ x.relPath) t hl]
            simp
          | none =>
            rw [replicateStruct_cons_create target st x rest hk hc hl]
            have hl2 : lookupNode ((target ++ x.relPath, NType.folder) :: st)
                (target ++ x.relPath) = some NType.folder := by
              unfold lookupNode
              rw [if_pos rfl]
            rw [lookupNode_mono target rest ((target ++ x.relPath, NType.folder) :: st)
              (target ++ x.relPath) NType.folder hl2]
            simp
    · cases hk : e.kind with
      | file =>
        rw [replicateStruct_cons_file target st e rest hk]
        exact ih st x hx2
      | dir =>
        cases hc : conflictOnPath st target e.relPath with
        | true =>
          rw [replicateStruct_cons_conflict target st e rest hk hc]
          exact ih st x hx2
        | false =>
          cases hl : lookupNode st (target ++ e.relPath) with
          | some t =>
            rw [replicateStruct_cons_reuse target st e rest t hk hc hl]
            exact ih st x hx2
          | none =>
            rw [replicateStruct_cons_create target st e rest hk hc hl]
            exact ih ((target ++ e.relPath, NType.folder) :: st) x hx2

/-! ## Prefix lemmas -/

theorem mem_nonemptyPrefixes_append (p r q : List String)
    (h : q ∈ nonemptyPrefixes p) : q ∈ nonemptyPrefixes (p ++ r) := by
  induction p generalizing q with
  | nil =>
    simp [nonemptyPrefixes] at h
  | cons a p ih =>
    rw [List.cons_append]
    unfold nonemptyPrefixes at h ⊢
    rcases List.mem_cons.mp h with rfl | hm
    · exact List.mem_cons_self _ _
    · obtain ⟨q2, hq2, rfl⟩ := List.mem_map.mp hm
      exact List.mem_cons_of_mem _ (List.mem_map.mpr ⟨q2, ih q2 hq2, rfl⟩)

theorem self_mem_nonemptyPrefixes (p : List String) (h : p ≠ []) :
    p ∈ nonemptyPrefixes p := by
  induction p with
  | nil => exact absurd rfl h
  | cons a p ih =>
    unfold nonemptyPrefixes
    rcases eq_or_ne p [] with rfl | hp
    · simp
    · exact List.mem_cons_of_mem _ (List.mem_map.mpr ⟨p, ih hp, rfl⟩)

theorem conflictOnPath_extend (st : RemoteState) (target p r : List String)
    (h : conflictOnPath st target p = true) :
    conflictOnPath st target (p ++ r) = true := by
  unfold conflictOnPath at h ⊢
  rw [List.any_eq_true] at h ⊢
  obtain ⟨q, hq, hnf⟩ := h
  exact ⟨q, mem_nonemptyPrefixes_append p r q hq, hnf⟩

/-- Every task the bulk upload dispatches after replication targets a parent
path that exists in the replicated remote state. -/
theorem bulk_parent_exists (target : List String) (st : RemoteState)
    (walk : List LocalEntry) (hwf : parentsListedB walk = true)
    (hroot : (lookupNode st target).isSome = true) :
    ∀ task ∈ dispatchedTasks target (replicateStruct target st walk).1 walk,
      (lookupNode (replicateStruct target st walk).1 task.2).isSome = true := by
  intro task htask
  unfold dispatchedTasks at htask
  rw [List.mem_filterMap] at htask
  obtain ⟨e, he, hfe⟩ := htask
  cases hk : e.kind with
  | dir =>
    rw [hk] at hfe
    cases hfe
  | file =>
    rw [hk] at hfe
    cases hc : conflictOnPath (replicateStruct target st walk).1 target e.relPath with
    | true =>
      rw [if_pos hc] at hfe
      cases hfe
    | false =>
      rw [if_neg (by simp [hc])] at hfe
      injection hfe with hfe
      subst hfe
      rcases eq_or_ne e.relPath.dropLast [] with hdl | hdl
      · rw [hdl, List.append_nil]
        obtain ⟨t, ht⟩ := Option.isSome_iff_exists.mp hroot
        rw [lookupNode_mono target walk st target t ht]
        rfl
      · have hrelne : e.relPath ≠ [] := by
          intro hre
          rw [hre] at hdl
          exact hdl rfl
        unfold parentsListedB at hwf
        rw [List.all_eq_true] at hwf
        have hwe := hwf e he
        rw [hk] at hwe
        rw [Bool.or_eq_true] at hwe
        rcases hwe with hemp | hany
        · exact absurd (List.isEmpty_iff.mp hemp) hdl
        rw [List.any_eq_true] at hany
        obtain ⟨d, hd, hdp⟩ := hany
        obtain ⟨hdk, hdr⟩ := of_decide_eq_true hdp
        have hsd := settled_after target walk st d hd
        unfold settledB at hsd
        rw [hdk] at hsd
        cases hcd : conflictOnPath (replicateStruct target st walk).1 target d.relPath with
        | true =>
          exfalso
          have hext : conflictOnPath (replicateStruct target st walk).1 target
              (d.relPath ++ [e.relPath.getLast hrelne]) = true :=
            conflictOnPath_extend _ target d.relPath _ hcd
          rw [hdr, List.dropLast_append_getLast hrelne] at hext
          rw [hc] at hext
          cases hext
        | false =>
          rw [hcd] at hsd
          simp only [Bool.false_or] at hsd
          rw [hdr] at hsd
          exact hsd

/-! ## Shape lemmas for the upload command -/

theorem uploadCmd_invalid_target (env : UploadEnv) (hn : env.nodeInfo = none) :
    uploadCmd env =
      ([Event.echoError ("Invalid target path: " ++ env.targetPath)], Termination.exited 1) := by
  unfold uploadCmd
  rw [hn]

theorem uploadCmd_flag_conflict (env : UploadEnv) (node : Node)
    (hn : env.nodeInfo = some node) (hoa : (env.overwrite && env.autoRename) = true) :
    uploadCmd env =
      ((if node.isEncrypted then [Event.initKeypair] else []) ++
         [Event.echoError
           ("Conflict: cannot use both resolution strategies (auto-rename / overwrite).")],
       Termination.exited 1) := by
  unfold uploadCmd
  rw [hn]
  simp only [hoa, if_true]

theorem uploadCmd_stop (env : UploadEnv) (node : Node) (term : Termination)
    (hn : env.nodeInfo = some node) (hoa : (env.overwrite && env.autoRename) = false)
    (ht : (transferPhase env (parse_path env.targetPath)
        (resolutionStrategy env.overwrite env.autoRename)).2 = some term) :
    uploadCmd env =
      ((if node.isEncrypted then [Event.initKeypair] else []) ++
         (transferPhase env (parse_path env.targetPath)
           (resolutionStrategy env.overwrite env.autoRename)).1,
       term) := by
  unfold uploadCmd
  rw [hn]
  simp only [hoa, Bool.false_eq_true, if_false, ht]

theorem uploadCmd_continue (env : UploadEnv) (node : Node)
    (hn : env.nodeInfo = some node) (hoa : (env.overwrite && env.autoRename) = false)
    (ht : (transferPhase env (parse_path env.targetPath)
        (resolutionStrategy env.overwrite env.autoRename)).2 = none) :
    uploadCmd env =
      ((if node.isEncrypted then [Event.initKeypair] else []) ++
         (transferPhase env (parse_path env.targetPath)
           (resolutionStrategy env.overwrite env.autoRename)).1 ++
         (finishPhase node).1,
       (finishPhase node).2) := by
  unfold uploadCmd
  rw [hn]
  simp only [hoa, Bool.false_eq_true, if_false, ht]

/-! ## Claim theorems -/

/-- C1: in the upload command, the room id passed to key distribution equals
the target node's own id when the resolved target node is a room, and equals
the target node's authParentId when it is a folder; both branches are taken
explicitly (src/dccmd/__init__.py lines 222-229). -/
theorem upload_distrib_room_id (env : UploadEnv) (node : Node) (r : Nat)
    (hn : env.nodeInfo = some node)
    (hmem : Event.distributeKeys r ∈ (uploadCmd env).1) :
    (node.type = NType.room → r = node.id) ∧
    (node.type = NType.folder → r = node.authParentId) := by
  have hd : distribNodeId node = some r := by
    cases hoa : env.overwrite && env.autoRename with
    | true =>
      rw [uploadCmd_flag_conflict env node hn hoa] at hmem
      rw [List.mem_append] at hmem
      rcases hmem with hmem | hmem
      · cases he : node.isEncrypted <;> simp [he] at hmem
      · simp at hmem
    | false =>
      cases ht : (transferPhase env (parse_path env.targetPath)
          (resolutionStrategy env.overwrite env.autoRename)).2 with
      | some term =>
        rw [uploadCmd_stop env node term hn hoa ht] at hmem
        rw [List.mem_append] at hmem
        rcases hmem with hmem | hmem
        · cases he : node.isEncrypted <;> simp [he] at hmem
        · exact absurd hmem (transferPhase_no_distrib env _ _ r)
      | none =>
        rw [uploadCmd_continue env node hn hoa ht] at hmem
        rw [List.mem_append, List.mem_append] at hmem
        rcases hmem with (hmem | hmem) | hmem
        · cases he : node.isEncrypted <;> simp [he] at hmem
        · exact absurd hmem (transferPhase_no_distrib env _ _ r)
        · exact distrib_in_finish node r hmem
  refine ⟨fun htype => ?_, fun htype => ?_⟩
  · rw [distribNodeId_room node htype] at hd
    injection hd with hd
    exact hd.symm
  · rw [distribNodeId_folder node htype] at hd
    injection hd with hd
    exact hd.symm

/-- Witness for C1: the room branch distributes to the room id 5 (not the
authParentId 7), the folder branch to the authParentId 5 (not the node id
6). -/
theorem upload_distrib_room_id_witness :
    (envOtherRoomEnc.nodeInfo = some nodeRoomEnc ∧
      Event.distributeKeys 5 ∈ (uploadCmd envOtherRoomEnc).1 ∧
      (nodeRoomEnc.type = NType.room → 5 = nodeRoomEnc.id)) ∧
    (envOtherFolderEnc.nodeInfo = some nodeFolderEnc ∧
      Event.distributeKeys 5 ∈ (uploadCmd envOtherFolderEnc).1 ∧
      (nodeFolderEnc.type = NType.folder → 5 = nodeFolderEnc.authParentId)) :=
  ⟨⟨rfl, by decide,
    (upload_distrib_room_id envOtherRoomEnc nodeRoomEnc 5 rfl (by decide)).1⟩,
   ⟨rfl, by decide,
    (upload_distrib_room_id envOtherFolderEnc nodeFolderEnc 5 rfl (by decide)).2⟩⟩

theorem transferPhase_folder_rec_named (env : UploadEnv) (p : List String) (s : String)
    (name : String) (hf : env.isFolder = true) (hr : env.recursive = true)
    (hsf : env.sourceFileName = some name) :
    transferPhase env p s =
      ([Event.createFolderStruct env.sourceDirPath p,
        Event.bulkUpload env.sourceDirPath p s env.velocity,
        Event.echoSuccess ("Folder " ++ name ++ " uploaded.")], none) := by
  simp [transferPhase, hf, hr, hsf]

theorem transferPhase_folder_rec_unnamed (env : UploadEnv) (p : List String) (s : String)
    (hf : env.isFolder = true) (hr : env.recursive = true)
    (hsf : env.sourceFileName = none) :
    transferPhase env p s =
      ([Event.createFolderStruct env.sourceDirPath p,
        Event.bulkUpload env.sourceDirPath p s env.velocity],
       some Termination.raisedPathParse) := by
  simp [transferPhase, hf, hr, hsf]

/-- C2: in every recursive folder upload, the upload command resolves the
whole folder-structure replication before the bulk upload is started (the
two events are adjacent in the trace, replication first); and every task the
bulk upload then dispatches targets a parent path that exists (is present)
in the replicated remote state. -/
theorem struct_before_dispatch :
    (∀ (env : UploadEnv) (node : Node), env.nodeInfo = some node →
      env.isFolder = true → env.recursive = true →
      (env.overwrite && env.autoRename) = false →
      ∃ pre post, (uploadCmd env).1 =
        pre ++ Event.createFolderStruct env.sourceDirPath (parse_path env.targetPath) ::
          Event.bulkUpload env.sourceDirPath (parse_path env.targetPath)
            (resolutionStrategy env.overwrite env.autoRename) env.velocity :: post) ∧
    (∀ (target : List String) (st : RemoteState) (walk : List LocalEntry),
      parentsListedB walk = true → (lookupNode st target).isSome = true →
      ∀ task ∈ dispatchedTasks target (replicateStruct target st walk).1 walk,
        (lookupNode (replicateStruct target st walk).1 task.2).isSome = true) := by
  constructor
  · intro env node hn hf hr hoa
    cases hsf : env.sourceFileName with
    | some name =>
      have ht2 : (transferPhase env (parse_path env.targetPath)
          (resolutionStrategy env.overwrite env.autoRename)).2 = none := by
        rw [transferPhase_folder_rec_named env _ _ name hf hr hsf]
      rw [uploadCmd_continue env node hn hoa ht2]
      rw [transferPhase_folder_rec_named env _ _ name hf hr hsf]
      refine ⟨if node.isEncrypted then [Event.initKeypair] else [],
        Event.echoSuccess ("Folder " ++ name ++ " uploaded.") :: (finishPhase node).1, ?_⟩
      simp
    | none =>
      have ht2 : (transferPhase env (parse_path env.targetPath)
          (resolutionStrategy env.overwrite env.autoRename)).2 =
            some Termination.raisedPathParse := by
        rw [transferPhase_folder_rec_unnamed env _ _ hf hr hsf]
      rw [uploadCmd_stop env node Termination.raisedPathParse hn hoa ht2]
      rw [transferPhase_folder_rec_unnamed env _ _ hf hr hsf]
      refine ⟨if node.isEncrypted then [Event.initKeypair] else [], [], ?_⟩
      simp
  · exact bulk_parent_exists

/-- Witness for C2: a recursive upload of a directory into an encrypted
room, and a concrete walk (a folder with one file) replicated into a
one-room remote state. -/
theorem struct_before_dispatch_witness :
    (envDirRec.nodeInfo = some nodeRoomEnc ∧ envDirRec.isFolder = true ∧
      envDirRec.recursive = true ∧ (envDirRec.overwrite && envDirRec.autoRename) = false ∧
      (∃ pre post, (uploadCmd envDirRec).1 =
        pre ++ Event.createFolderStruct envDirRec.sourceDirPath (parse_path envDirRec.targetPath) ::
          Event.bulkUpload envDirRec.sourceDirPath (parse_path envDirRec.targetPath)
            (resolutionStrategy envDirRec.overwrite envDirRec.autoRename) envDirRec.velocity ::
          post)) ∧
    (parentsListedB walkDocs = true ∧ (lookupNode stRoomOnly ["r"]).isSome = true ∧
      ∀ task ∈ dispatchedTasks ["r"] (replicateStruct ["r"] stRoomOnly walkDocs).1 walkDocs,
        (lookupNode (replicateStruct ["r"] stRoomOnly walkDocs).1 task.2).isSome = true) :=
  ⟨⟨rfl, rfl, rfl, rfl,
    struct_before_dispatch.1 envDirRec nodeRoomEnc rfl rfl rfl rfl⟩,
   ⟨by decide, by decide,
    struct_before_dispatch.2 ["r"] stRoomOnly walkDocs (by decide) (by decide)⟩⟩

theorem finishPhase_term_cases (node : Node) :
    (finishPhase node).2 = Termination.finished ∨
      (finishPhase node).2 = Termination.unboundLocalError := by
  unfold finishPhase
  repeat' split <;> try simp

/-- Counterexample to C3 as stated: a run whose destination resolves and
whose source is neither a file nor a directory does not terminate with a
nonzero exit; the command prints the error, logs out and finishes with exit
status 0. -/
theorem upload_fatal_precondition_counterexample :
    (uploadCmd envOtherRoomPlain).2 = Termination.finished ∧
    (uploadCmd envOtherRoomPlain).2 ≠ Termination.exited 1 ∧
    (uploadCmd envOtherRoomPlain).2 ≠ Termination.exited 2 ∧
    Event.echoError ("Provided path must be a folder or file. (src)") ∈
      (uploadCmd envOtherRoomPlain).1 := by
  decide

/-- C3 amended: the upload command terminates with exit code 1 before any
transfer work exactly when the destination path resolves to no node or both
the overwrite and auto-rename flags are given; when the source root is
neither a file nor a directory an error is echoed but the run is not fatal.
Whenever the command exits with code 1, no transfer event has occurred. -/
theorem upload_fatal_precondition (env : UploadEnv) :
    ((uploadCmd env).2 = Termination.exited 1 ↔
      (env.nodeInfo = none ∨ (env.overwrite && env.autoRename) = true)) ∧
    ((uploadCmd env).2 = Termination.exited 1 →
      ∀ e ∈ (uploadCmd env).1, isTransferEvent e = false) ∧
    (∀ node : Node, env.nodeInfo = some node →
      (env.overwrite && env.autoRename) = false →
      env.isFolder = false → env.isFile = false →
      Event.echoError
          ("Provided path must be a folder or file. (" ++ env.sourceDirPath ++ ")") ∈
        (uploadCmd env).1 ∧
      ∀ c : Nat, (uploadCmd env).2 ≠ Termination.exited c) := by
  have hAB : ((uploadCmd env).2 = Termination.exited 1 ↔
      (env.nodeInfo = none ∨ (env.overwrite && env.autoRename) = true)) ∧
    ((uploadCmd env).2 = Termination.exited 1 →
      ∀ e ∈ (uploadCmd env).1, isTransferEvent e = false) := by
   cases hn : env.nodeInfo with
   | none =>
     rw [uploadCmd_invalid_target env hn]
     constructor
     · simp [hn]
     · intro _ e he
       simp at he
       rw [he]
       rfl
   | some node =>
     cases hoa : env.overwrite && env.autoRename with
     | true =>
       rw [uploadCmd_flag_conflict env node hn hoa]
       constructor
       · simp [hoa]
       · intro _ e he
         rw [List.mem_append] at he
         rcases he with he | he
         · cases henc : node.isEncrypted with
           | false => simp [henc] at he
           | true =>
             simp [henc] at he
             rw [he]
             rfl
         · simp at he
           rw [he]
           rfl
     | false =>
       cases ht : (transferPhase env (parse_path env.targetPath)
           (resolutionStrategy env.overwrite env.autoRename)).2 with
       | some term =>
         rw [uploadCmd_stop env node term hn hoa ht]
         have hne : term ≠ Termination.exited 1 := by
           rcases transferPhase_term_cases env _ _ term ht with h2 | h2 <;> simp [h2]
         constructor
         · constructor
           · intro hx
             exact absurd hx hne
           · intro hx
             rcases hx with hx | hx
             · simp [hn] at hx
             · simp [hoa] at hx
         · intro hx
           exact absurd hx hne
       | none =>
         rw [uploadCmd_continue env node hn hoa ht]
         have hne : (finishPhase node).2 ≠ Termination.exited 1 := by
           rcases finishPhase_term_cases node with h2 | h2 <;> simp [h2]
         constructor
         · constructor
           · intro hx
             exact absurd hx hne
           · intro hx
             rcases hx with hx | hx
             · simp [hn] at hx
             · simp [hoa] at hx
         · intro hx
           exact absurd hx hne
  refine ⟨hAB.1, hAB.2, ?_⟩
  intro node hn hoa hf hfi
  have htp : transferPhase env (parse_path env.targetPath)
      (resolutionStrategy env.overwrite env.autoRename) =
        ([Event.echoError
            ("Provided path must be a folder or file. (" ++ env.sourceDirPath ++ ")")],
         none) := by
    simp [transferPhase, hf, hfi]
  have ht2 : (transferPhase env (parse_path env.targetPath)
      (resolutionStrategy env.overwrite env.autoRename)).2 = none := by
    rw [htp]
  rw [uploadCmd_continue env node hn hoa ht2]
  constructor
  · rw [htp, List.mem_append]
    left
    rw [List.mem_append]
    right
    simp
  · intro c
    rcases finishPhase_term_cases node with h2 | h2 <;> simp [h2]

/-- Witness for C3 (amended): the unresolvable-destination run exits with
code 1, and the concrete run whose source is neither a file nor a directory
echoes the error and never calls sys.exit. -/
theorem upload_fatal_precondition_witness :
    ((uploadCmd envNoNode).2 = Termination.exited 1 ↔
      (envNoNode.nodeInfo = none ∨ (envNoNode.overwrite && envNoNode.autoRename) = true)) ∧
    (envOtherRoomPlain.nodeInfo = some nodeRoomPlain ∧
      (envOtherRoomPlain.overwrite && envOtherRoomPlain.autoRename) = false ∧
      envOtherRoomPlain.isFolder = false ∧ envOtherRoomPlain.isFile = false ∧
      (Event.echoError
          ("Provided path must be a folder or file. (" ++
            envOtherRoomPlain.sourceDirPath ++ ")") ∈
          (uploadCmd envOtherRoomPlain).1 ∧
        ∀ c : Nat, (uploadCmd envOtherRoomPlain).2 ≠ Termination.exited c)) :=
  ⟨(upload_fatal_precondition envNoNode).1,
   ⟨rfl, rfl, rfl, rfl,
    (upload_fatal_precondition envOtherRoomPlain).2.2 nodeRoomPlain rfl rfl rfl rfl⟩⟩

/-- C4: with neither the overwrite nor the auto-rename flag the upload
command selects the "fail" strategy; under "fail" the conflict policy
rejects a target name occupied by a node of any type with a Conflict and
performs no mutation of the existing node; and a single-file upload that
hits an existing node under this strategy echoes the conflict and exits
with code 2. -/
theorem fail_strategy_conflict :
    (∀ overwrite autoRename : Bool, overwrite = false → autoRename = false →
      resolutionStrategy overwrite autoRename = "fail") ∧
    (∀ t : NType,
      conflictPolicy "fail" (some t) = PolicyAction.reject ConflictKind.conflict ∧
      mutatesExisting (conflictPolicy "fail" (some t)) = false) ∧
    (∀ (env : UploadEnv) (node : Node), env.nodeInfo = some node →
      env.overwrite = false → env.autoRename = false → env.isFolder = false →
      env.isFile = true → env.uploadResult = UploadOutcome.conflict →
      (uploadCmd env).2 = Termination.exited 2 ∧
      Event.echoError ("File already exists.") ∈ (uploadCmd env).1) := by
  refine ⟨?_, ?_, ?_⟩
  · intro o a ho ha
    rw [ho, ha]
    rfl
  · intro t
    exact ⟨rfl, rfl⟩
  · intro env node hn ho ha hf hfile hres
    have hoa : (env.overwrite && env.autoRename) = false := by
      rw [ho]
      rfl
    have ht : (transferPhase env (parse_path env.targetPath)
        (resolutionStrategy env.overwrite env.autoRename)).2 =
          some (Termination.exited 2) := by
      simp [transferPhase, hf, hfile, hres]
    rw [uploadCmd_stop env node (Termination.exited 2) hn hoa ht]
    refine ⟨rfl, ?_⟩
    rw [List.mem_append]
    right
    have heq : (transferPhase env (parse_path env.targetPath)
        (resolutionStrategy env.overwrite env.autoRename)).1 =
          [Event.singleUpload env.sourceDirPath (parse_path env.targetPath)
             (resolutionStrategy env.overwrite env.autoRename), Event.logout,
           Event.echoError ("File already exists.")] := by
      simp [transferPhase, hf, hfile, hres]
    rw [heq]
    simp

/-- Witness for C4: the default strategy on a concrete conflicting
single-file run, and the policy on a concrete occupied name. -/
theorem fail_strategy_conflict_witness :
    (resolutionStrategy false false = "fail") ∧
    (conflictPolicy "fail" (some NType.file) = PolicyAction.reject ConflictKind.conflict ∧
      mutatesExisting (conflictPolicy "fail" (some NType.file)) = false) ∧
    (envFileConflict.nodeInfo = some nodeRoomPlain ∧
      (uploadCmd envFileConflict).2 = Termination.exited 2 ∧
      Event.echoError ("File already exists.") ∈ (uploadCmd envFileConflict).1) :=
  ⟨fail_strategy_conflict.1 false false rfl rfl,
   fail_strategy_conflict.2.1 NType.file,
   ⟨rfl,
    (fail_strategy_conflict.2.2 envFileConflict nodeRoomPlain rfl rfl rfl rfl rfl rfl).1,
    (fail_strategy_conflict.2.2 envFileConflict nodeRoomPlain rfl rfl rfl rfl rfl rfl).2⟩⟩

/-- C5: for a run that completes normally against a room or folder target,
key distribution is invoked iff the resolved target node is encrypted, and
the trace splits into a prefix free of key distribution and a suffix free of
transfer work, with key distribution (when it happens) in the suffix: it
runs strictly after the transfer step has completed. -/
theorem keys_iff_encrypted_after_transfer (env : UploadEnv) (node : Node)
    (hn : env.nodeInfo = some node)
    (htype : node.type = NType.room ∨ node.type = NType.folder)
    (hfin : (uploadCmd env).2 = Termination.finished) :
    ((∃ r, Event.distributeKeys r ∈ (uploadCmd env).1) ↔ node.isEncrypted = true) ∧
    (∃ pre post, (uploadCmd env).1 = pre ++ post ∧
      (∀ r, Event.distributeKeys r ∉ pre) ∧
      (∀ e ∈ post, isTransferEvent e = false) ∧
      (node.isEncrypted = true → ∃ r, Event.distributeKeys r ∈ post)) := by
  obtain ⟨rid, hd⟩ : ∃ rid, distribNodeId node = some rid := by
    rcases htype with h | h
    · exact ⟨node.id, distribNodeId_room node h⟩
    · exact ⟨node.authParentId, distribNodeId_folder node h⟩
  cases hoa : env.overwrite && env.autoRename with
  | true =>
    rw [uploadCmd_flag_conflict env node hn hoa] at hfin
    cases hfin
  | false =>
    cases ht : (transferPhase env (parse_path env.targetPath)
        (resolutionStrategy env.overwrite env.autoRename)).2 with
    | some term =>
      rw [uploadCmd_stop env node term hn hoa ht] at hfin
      rcases transferPhase_term_cases env _ _ term ht with h2 | h2 <;>
        rw [show term = (((if node.isEncrypted then [Event.initKeypair] else []) ++
          (transferPhase env (parse_path env.targetPath)
            (resolutionStrategy env.overwrite env.autoRename)).1, term) :
            List Event × Termination).2 from rfl, hfin] at h2 <;> cases h2
    | none =>
      rw [uploadCmd_continue env node hn hoa ht]
      constructor
      · constructor
        · rintro ⟨r, hr⟩
          cases henc : node.isEncrypted with
          | true => rfl
          | false =>
            rw [List.mem_append, List.mem_append] at hr
            rcases hr with (hr | hr) | hr
            · simp [henc] at hr
            · exact absurd hr (transferPhase_no_distrib env _ _ r)
            · simp [finishPhase, henc] at hr
        · intro henc
          refine ⟨rid, ?_⟩
          rw [List.mem_append]
          right
          simp [finishPhase, henc, hd]
      · refine ⟨(if node.isEncrypted then [Event.initKeypair] else []) ++
          (transferPhase env (parse_path env.targetPath)
            (resolutionStrategy env.overwrite env.autoRename)).1,
          (finishPhase node).1, rfl, ?_, ?_, ?_⟩
        · intro r
          rw [List.mem_append]
          rintro (hr | hr)
          · cases henc : node.isEncrypted <;> simp [henc] at hr
          · exact absurd hr (transferPhase_no_distrib env _ _ r)
        · exact fun e he => finish_no_transfer node e he
        · intro henc
          exact ⟨rid, by simp [finishPhase, henc, hd]⟩

/-- Witness for C5: a successful single-file upload into an encrypted room;
the run finishes normally and key distribution follows the transfer. -/
theorem keys_iff_encrypted_after_transfer_witness :
    (envFileOkRoomEnc.nodeInfo = some nodeRoomEnc ∧
      (nodeRoomEnc.type = NType.room ∨ nodeRoomEnc.type = NType.folder) ∧
      (uploadCmd envFileOkRoomEnc).2 = Termination.finished) ∧
    (((∃ r, Event.distributeKeys r ∈ (uploadCmd envFileOkRoomEnc).1) ↔
        nodeRoomEnc.isEncrypted = true) ∧
      (∃ pre post, (uploadCmd envFileOkRoomEnc).1 = pre ++ post ∧
        (∀ r, Event.distributeKeys r ∉ pre) ∧
        (∀ e ∈ post, isTransferEvent e = false) ∧
        (nodeRoomEnc.isEncrypted = true → ∃ r, Event.distributeKeys r ∈ post))) :=
  ⟨⟨rfl, Or.inl rfl, by decide⟩,
   keys_iff_encrypted_after_transfer envFileOkRoomEnc nodeRoomEnc rfl (Or.inl rfl) (by decide)⟩

/-- Counterexample to C5 as stated: a recursive upload into an encrypted
room whose replication and bulk upload both complete but whose run then dies
at the unguarded `parse_file_name(source_dir_path)` call (src line 173): the
destination is encrypted and the transfer step has completed, yet no key
distribution is invoked. -/
theorem keys_iff_encrypted_counterexample :
    nodeRoomEnc.isEncrypted = true ∧
    envDirRecParseErr.nodeInfo = some nodeRoomEnc ∧
    Event.createFolderStruct "srcdir" (parse_path "h/r") ∈
      (uploadCmd envDirRecParseErr).1 ∧
    Event.bulkUpload "srcdir" (parse_path "h/r") (resolutionStrategy false false) 2 ∈
      (uploadCmd envDirRecParseErr).1 ∧
    containsDistrib (uploadCmd envDirRecParseErr).1 = false ∧
    (uploadCmd envDirRecParseErr).2 = Termination.raisedPathParse := by
  decide

/-- C6: running the folder-structure replication a second time against an
unchanged local tree and the remote state the first run produced performs
zero additional mutating remote calls and leaves the remote state
unchanged. -/
theorem replicateStruct_idempotent (target : List String) (st : RemoteState)
    (walk : List LocalEntry) :
    replicateStruct target (replicateStruct target st walk).1 walk =
      ((replicateStruct target st walk).1, 0) :=
  replicateStruct_settled target walk (replicateStruct target st walk).1
    (fun e he => settled_after target walk st e he)

/-- C7: `parse_new_path` returns the parent of the final segment of the
parsed path, fails with a path-parse error exactly when the input refers to
the hierarchy root, and mkdir and mkroom create the new node under the node
resolved at that parent path. -/
theorem parse_new_path_parent :
    (∀ (raw : String) (p : List String) (s : String),
      parse_path raw = p ++ [s] → parse_new_path raw = Except.ok p) ∧
    (∀ raw : String, parse_path raw = [] →
      parse_new_path raw = Except.error ParseErr.pathParse) ∧
    (∀ (env : MkdirEnv) (parentPath : List String) (pn : Node),
      parse_new_path env.dirPath = Except.ok parentPath → env.parentNode = some pn →
      ∃ name rest, (mkdirCmd env).1 = MkEvent.createFolder pn.id name :: rest) ∧
    (∀ (env : MkroomEnv) (parentPath : List String) (pn : Node),
      parse_new_path env.dirPath = Except.ok parentPath → env.parentNode = some pn →
      pn.type = NType.room →
      ∃ name rest, (mkroomCmd env).1 = MkEvent.createRoom pn.id name true :: rest) := by
  have hmain : ∀ (raw : String) (p : List String) (s : String),
      parse_path raw = p ++ [s] → parse_new_path raw = Except.ok p := by
    intro raw p s h
    cases p with
    | nil =>
      rw [List.nil_append] at h
      unfold parse_new_path
      rw [h]
      rfl
    | cons a p2 =>
      unfold parse_new_path
      rw [List.cons_append] at h
      rw [h]
      show Except.ok ((a :: (p2 ++ [s])).dropLast) = Except.ok (a :: p2)
      rw [← List.cons_append, List.dropLast_concat]
  have hname : ∀ (raw : String) (parentPath : List String),
      parse_new_path raw = Except.ok parentPath →
      ∃ lastSeg, parse_file_name raw = Except.ok lastSeg := by
    intro raw parentPath hok
    have hne : parse_path raw ≠ [] := by
      intro hp
      unfold parse_new_path at hok
      rw [hp] at hok
      cases hok
    cases hl : (parse_path raw).getLast? with
    | some s =>
      refine ⟨s, ?_⟩
      unfold parse_file_name
      rw [hl]
    | none => exact absurd (List.getLast?_eq_none_iff.mp hl) hne
  refine ⟨hmain, ?_, ?_, ?_⟩
  · intro raw h
    unfold parse_new_path
    rw [h]
  · intro env parentPath pn hok hpn
    obtain ⟨lastSeg, hfn⟩ := hname env.dirPath parentPath hok
    cases hcr : env.createResult with
    | ok =>
      exact ⟨lastSeg, [MkEvent.echoSuccess ("Folder " ++ lastSeg ++ " created."),
        MkEvent.logout], by simp [mkdirCmd, hok, hfn, hpn, hcr]⟩
    | conflict =>
      exact ⟨lastSeg, [MkEvent.logout,
        MkEvent.echoError ("Name already exists: " ++ env.dirPath)],
        by simp [mkdirCmd, hok, hfn, hpn, hcr]⟩
    | forbidden =>
      exact ⟨lastSeg, [MkEvent.logout,
        MkEvent.echoError ("Insufficient permissions (create permission required).")],
        by simp [mkdirCmd, hok, hfn, hpn, hcr]⟩
    | otherHttpError =>
      exact ⟨lastSeg, [MkEvent.logout,
        MkEvent.echoError ("An error ocurred - folder could not be created.")],
        by simp [mkdirCmd, hok, hfn, hpn, hcr]⟩
  · intro env parentPath pn hok hpn hroom
    obtain ⟨lastSeg, hfn⟩ := hname env.dirPath parentPath hok
    cases hcr : env.createResult with
    | ok =>
      exact ⟨lastSeg, [MkEvent.echoSuccess ("Room " ++ lastSeg ++ " created."),
        MkEvent.logout], by simp [mkroomCmd, hok, hfn, hpn, hcr, hroom]⟩
    | conflict =>
      exact ⟨lastSeg, [MkEvent.echoError ("Name already exists: " ++ env.dirPath),
        MkEvent.logout], by simp [mkroomCmd, hok, hfn, hpn, hcr, hroom]⟩
    | forbidden =>
      exact ⟨lastSeg, [MkEvent.logout,
        MkEvent.echoError ("Insufficient permissions (room admin required).")],
        by simp [mkroomCmd, hok, hfn, hpn, hcr, hroom]⟩
    | otherHttpError =>
      exact ⟨lastSeg, [MkEvent.logout,
        MkEvent.echoError ("An error ocurred - room could not be created.")],
        by simp [mkroomCmd, hok, hfn, hpn, hcr, hroom]⟩
    | connectTimeout =>
      exact ⟨lastSeg,
        [MkEvent.echoError ("Connection timeout - room could not be created.")],
        by simp [mkroomCmd, hok, hfn, hpn, hcr, hroom]⟩
    | connectError =>
      exact ⟨lastSeg,
        [MkEvent.echoError ("Connection error - room could not be created.")],
        by simp [mkroomCmd, hok, hfn, hpn, hcr, hroom]⟩

/-- Witness for C7: a two-segment path has its first segment as parent, a
bare host is rejected, and the concrete mkdir and mkroom runs create under
the resolved parent node id. -/
theorem parse_new_path_parent_witness :
    (parse_path "h/a/b" = ["a"] ++ ["b"] ∧ parse_new_path "h/a/b" = Except.ok ["a"]) ∧
    (parse_path "h" = [] ∧ parse_new_path "h" = Except.error ParseErr.pathParse) ∧
    (parse_new_path mkdirEnvEx.dirPath = Except.ok ["r"] ∧
      mkdirEnvEx.parentNode = some nodeRoomPlain ∧
      ∃ name rest, (mkdirCmd mkdirEnvEx).1 = MkEvent.createFolder nodeRoomPlain.id name :: rest) ∧
    (parse_new_path mkroomEnvEx.dirPath = Except.ok ["r"] ∧
      mkroomEnvEx.parentNode = some nodeRoomPlain ∧ nodeRoomPlain.type = NType.room ∧
      ∃ name rest, (mkroomCmd mkroomEnvEx).1 = MkEvent.createRoom nodeRoomPlain.id name true :: rest) :=
  ⟨⟨by decide, parse_new_path_parent.1 "h/a/b" ["a"] "b" (by decide)⟩,
   ⟨by decide, parse_new_path_parent.2.1 "h" (by decide)⟩,
   ⟨rfl, rfl,
    parse_new_path_parent.2.2.1 mkdirEnvEx ["r"] nodeRoomPlain rfl rfl⟩,
   ⟨rfl, rfl, rfl,
    parse_new_path_parent.2.2.2 mkroomEnvEx ["r"] nodeRoomPlain rfl rfl rfl⟩⟩

/-- C8: in every state the bulk-upload scheduler can reach from its initial
state, at most `limit` uploads (the in-flight maximum the velocity factor
maps to) are simultaneously outstanding. -/
theorem scheduler_bound (limit : Nat) (tasks : List Nat) (s : SchedState)
    (h : SchedReachable limit (initSched tasks) s) :
    s.inFlight.length ≤ limit := by
  induction h with
  | refl => simp [initSched]
  | step s2 s3 hreach hstep ih =>
    cases hstep with
    | dispatch t ht hb => exact hb
    | settle t ht =>
      exact le_trans (List.Sublist.length_le (List.erase_sublist t s2.inFlight)) ih

/-- Witness for C8: with limit 2, the state after dispatching one of three
queued tasks is reachable and holds the bound. -/
theorem scheduler_bound_witness :
    SchedReachable 2 (initSched [1, 2, 3]) ⟨[2, 3], [1], []⟩ ∧
    (⟨[2, 3], [1], []⟩ : SchedState).inFlight.length ≤ 2 :=
  have hreach : SchedReachable 2 (initSched [1, 2, 3]) ⟨[2, 3], [1], []⟩ :=
    SchedReachable.step (initSched [1, 2, 3]) ⟨[2, 3], [1], []⟩ SchedReachable.refl
      (show SchedStep 2 (initSched [1, 2, 3]) ⟨[2, 3], [1], []⟩ from
        SchedStep.dispatch (initSched [1, 2, 3]) 1 (by decide) (by decide))
  ⟨hreach, scheduler_bound 2 [1, 2, 3] ⟨[2, 3], [1], []⟩ hreach⟩

/-- C9: when the resolved target node is encrypted but neither a folder nor
a room (for example a file), a run that reaches the key-distribution step
reads the never-assigned `distrib_node_id` and raises an unbound-variable
error: no key distribution happens, no logout is performed and no outcome is
recorded. -/
theorem unbound_distrib_node_id (env : UploadEnv) (node : Node)
    (hn : env.nodeInfo = some node)
    (htype : node.type = NType.file)
    (henc : node.isEncrypted = true)
    (hoa : (env.overwrite && env.autoRename) = false)
    (hcont : (transferPhase env (parse_path env.targetPath)
        (resolutionStrategy env.overwrite env.autoRename)).2 = none) :
    (uploadCmd env).2 = Termination.unboundLocalError ∧
    (∀ r, Event.distributeKeys r ∉ (uploadCmd env).1) ∧
    Event.logout ∉ (uploadCmd env).1 := by
  rw [uploadCmd_continue env node hn hoa hcont]
  have hfe : finishPhase node = ([], Termination.unboundLocalError) := by
    simp [finishPhase, henc, distribNodeId_file node htype]
  rw [hfe]
  refine ⟨rfl, ?_, ?_⟩
  · intro r
    rw [List.mem_append, List.mem_append]
    rintro ((hmem | hmem) | hmem)
    · simp [henc] at hmem
    · exact absurd hmem (transferPhase_no_distrib env _ _ r)
    · simp at hmem
  · rw [List.mem_append, List.mem_append]
    rintro ((hmem | hmem) | hmem)
    · simp [henc] at hmem
    · exact absurd hmem (transferPhase_no_logout_of_continue env _ _ hcont)
    · simp at hmem

/-- Witness for C9: a directory source without the recursive flag aimed at
an encrypted file node ends in the unbound-variable error. -/
theorem unbound_distrib_node_id_witness :
    (envDirNoRecFileEnc.nodeInfo = some nodeFileEnc ∧
      nodeFileEnc.type = NType.file ∧ nodeFileEnc.isEncrypted = true ∧
      (envDirNoRecFileEnc.overwrite && envDirNoRecFileEnc.autoRename) = false ∧
      (transferPhase envDirNoRecFileEnc (parse_path envDirNoRecFileEnc.targetPath)
        (resolutionStrategy envDirNoRecFileEnc.overwrite envDirNoRecFileEnc.autoRename)).2 =
          none) ∧
    ((uploadCmd envDirNoRecFileEnc).2 = Termination.unboundLocalError ∧
      (∀ r, Event.distributeKeys r ∉ (uploadCmd envDirNoRecFileEnc).1) ∧
      Event.logout ∉ (uploadCmd envDirNoRecFileEnc).1) :=
  ⟨⟨rfl, rfl, rfl, rfl, rfl⟩,
   unbound_distrib_node_id envDirNoRecFileEnc nodeFileEnc rfl rfl rfl rfl rfl⟩

/-- C10: a directory source without the recursive flag only echoes an error:
the run is not terminated early, it still proceeds to key distribution when
the (room or folder) target is encrypted, logs out and finishes with exit
status 0; no transfer work is performed. -/
theorem dir_without_recursive_continues (env : UploadEnv) (node : Node)
    (hn : env.nodeInfo = some node)
    (hf : env.isFolder = true) (hr : env.recursive = false)
    (htype : node.type = NType.room ∨ node.type = NType.folder)
    (hoa : (env.overwrite && env.autoRename) = false) :
    Event.echoError ("Folder can only be uploaded via recursive (-r) flag.") ∈
      (uploadCmd env).1 ∧
    (uploadCmd env).2 = Termination.finished ∧
    Event.logout ∈ (uploadCmd env).1 ∧
    (node.isEncrypted = true → ∃ r, Event.distributeKeys r ∈ (uploadCmd env).1) ∧
    (∀ e ∈ (uploadCmd env).1, isTransferEvent e = false) := by
  have htp : transferPhase env (parse_path env.targetPath)
      (resolutionStrategy env.overwrite env.autoRename) =
        ([Event.echoError ("Folder can only be uploaded via recursive (-r) flag.")],
         none) := by
    simp [transferPhase, hf, hr]
  have ht2 : (transferPhase env (parse_path env.targetPath)
      (resolutionStrategy env.overwrite env.autoRename)).2 = none := by
    rw [htp]
  rw [uploadCmd_continue env node hn hoa ht2]
  obtain ⟨rid, hd⟩ : ∃ rid, distribNodeId node = some rid := by
    rcases htype with h | h
    · exact ⟨node.id, distribNodeId_room node h⟩
    · exact ⟨node.authParentId, distribNodeId_folder node h⟩
  refine ⟨?_, ?_, ?_, ?_, ?_⟩
  · rw [htp, List.mem_append]
    left
    rw [List.mem_append]
    right
    simp
  · cases henc : node.isEncrypted with
    | true => simp [finishPhase, henc, hd]
    | false => simp [finishPhase, henc]
  · rw [List.mem_append]
    right
    cases henc : node.isEncrypted with
    | true => simp [finishPhase, henc, hd]
    | false => simp [finishPhase, henc]
  · intro henc
    refine ⟨rid, ?_⟩
    rw [List.mem_append]
    right
    simp [finishPhase, henc, hd]
  · intro e he
    rw [htp] at he
    rw [List.mem_append, List.mem_append] at he
    rcases he with (he | he) | he
    · cases henc : node.isEncrypted with
      | true =>
        simp [henc] at he
        rw [he]
        rfl
      | false => simp [henc] at he
    · simp at he
      rw [he]
      rfl
    · exact finish_no_transfer node e he

/-- Witness for C10: a directory source without the recursive flag into an
encrypted room; the run finishes with status 0 after distributing keys. -/
theorem dir_without_recursive_continues_witness :
    (envDirNoRec.nodeInfo = some nodeRoomEnc ∧ envDirNoRec.isFolder = true ∧
      envDirNoRec.recursive = false ∧
      (nodeRoomEnc.type = NType.room ∨ nodeRoomEnc.type = NType.folder) ∧
      (envDirNoRec.overwrite && envDirNoRec.autoRename) = false) ∧
    (Event.echoError ("Folder can only be uploaded via recursive (-r) flag.") ∈
        (uploadCmd envDirNoRec).1 ∧
      (uploadCmd envDirNoRec).2 = Termination.finished ∧
      Event.logout ∈ (uploadCmd envDirNoRec).1 ∧
      (nodeRoomEnc.isEncrypted = true →
        ∃ r, Event.distributeKeys r ∈ (uploadCmd envDirNoRec).1) ∧
      (∀ e ∈ (uploadCmd envDirNoRec).1, isTransferEvent e = false)) :=
  ⟨⟨rfl, rfl, rfl, Or.inl rfl, rfl⟩,
   dir_without_recursive_continues envDirNoRec nodeRoomEnc rfl rfl rfl (Or.inl rfl) rfl⟩

end Dccmd
